import Mathlib

/-!
Shallow embedding of `src/scraper/src/worker.py` from the `robin` repository:
a message-driven ingestion worker whose pipeline fetches quotes or popularity
counts from an upstream API, classifies responses, retries with backoff, and
persists normalized records.

External effects (API calls, sleeps, database writes, prints, completion-flag
setters) are recorded as an event trace.  Nondeterministic external outcomes
(what the upstream API returned, whether a database write failed) are supplied
as oracles, one per fetch attempt.  Python's unbounded recursive retries are
modelled with a fuel parameter: `none` means the recursion was not given enough
fuel (or the attempt oracle ran dry), and all theorems quantify over fuel.
Machine floats (cooldown seconds) are modelled as rationals.
-/

namespace Robin

/-- Helpers `parse_instrument_url`, `parse_updated_at`, `pluck`,
`DESIRED_QUOTE_KEYS` live in `utils.py` and `parse_throttle_res` in
`common.py`; those files are not part of the scraper source here, so they are
modelled from the spec where needed. -/
inductive StoreExn
  | bulkWriteExn
  | operationFailure
  deriving DecidableEq, Repr

/-- A Python exception value that can propagate out of the pipeline code. -/
inductive PyExn
  | jsonDecodeError
  | typeError
  | malformedCooldown
  | storeExn (e : StoreExn)
  deriving DecidableEq, Repr

/-- Result of running a piece of Python code: normal return or an uncaught
exception propagating to the caller. -/
inductive PyResult
  | ok
  | exn (e : PyExn)
  deriving DecidableEq, Repr

/-- A raw quote dict as returned in the upstream `results` list.  Fields read
with `quote["k"]` in the source are plain; fields read with `datum.get("k")`
are optional. -/
structure Quote where
  instrument : String
  symbol : String
  bid_price : String
  ask_price : String
  updated_at : Option String
  has_traded : Option Bool
  trading_halted : Option Bool
  deriving DecidableEq, Repr

/-- The normalized quote fact document built by `map_quote` inside
`store_quotes`: `{"instrument_id": ..., **pluck(DESIRED_QUOTE_KEYS, quote)}`
with `updated_at` parsed. -/
structure QuoteDoc where
  instrument_id : String
  symbol : String
  bid_price : String
  ask_price : String
  updated_at : Option String
  deriving DecidableEq, Repr

/-- One `pymongo.operations.UpdateOne({"instrument_id": id}, {"$set": data})`
built by `update_index_symbol` inside `store_quotes`. -/
structure IndexOp where
  filter_instrument_id : String
  timestamp : String
  has_traded : Option Bool
  updated_at : Option String
  trading_halted : Option Bool
  deriving DecidableEq, Repr

/-- One popularity document inserted by `store_popularities`. -/
structure PopDoc where
  timestamp : String
  instrument_id : String
  popularity : Int
  deriving DecidableEq, Repr

/-- One row failure inside a `pymongo.errors.BulkWriteError`, with its
`errmsg` text. -/
structure WriteError where
  errmsg : String
  deriving DecidableEq, Repr

/-- Outcome of `collection.insert_many(quotes, ordered=False)` in
`store_quotes`: success, or a `BulkWriteError` carrying row-level
`writeErrors`. -/
inductive InsertOutcome
  | ok
  | bulkWriteError (writeErrors : List WriteError)
  deriving DecidableEq, Repr

/-- Observable effect of the pipeline, recorded in program order. -/
inductive Event
  | apiCall (batch : String)
  | sleepEv (seconds : ℚ)
  | setQuotesFinished
  | setPopularitiesFinished
  | indexBulkWrite (ops : List IndexOp)
  | insertQuotes (docs : List QuoteDoc)
  | insertPopularities (docs : List PopDoc)
  | logMsg (msg : String)
  /-- The unhandled-write-error branch of `store_quotes` prints an ERROR line
  and pretty-prints the row failure; both prints are recorded as this one
  event. -/
  | logWriteError (err : WriteError)
  | pprintEv
  deriving DecidableEq, Repr

instance {α β : Type} [DecidableEq α] [DecidableEq β] : DecidableEq (Except α β) := fun x y =>
  match x, y with
  | Except.ok a, Except.ok b =>
    if h : a = b then isTrue (congrArg Except.ok h)
    else isFalse (fun hc => h (Except.ok.inj hc))
  | Except.error a, Except.error b =>
    if h : a = b then isTrue (congrArg Except.error h)
    else isFalse (fun hc => h (Except.error.inj hc))
  | Except.ok _, Except.error _ => isFalse (fun hc => Except.noConfusion hc)
  | Except.error _, Except.ok _ => isFalse (fun hc => Except.noConfusion hc)

/-- Splits a character list on a separator character; kernel-reducible
counterpart of `str.split(sep)`. -/
def splitOnChar (c : Char) : List Char → List (List Char)
  | [] => [[]]
  | x :: xs =>
    match splitOnChar c xs, decide (x = c) with
    | r, true => [] :: r
    | [], false => [[x]]
    | h :: t, false => (x :: h) :: t

/-- Parses a token of decimal digits; kernel-reducible counterpart of
`int(tok)` on a digit string. -/
def charsToNat? (l : List Char) : Option Nat :=
  if l = [] then none
  else if l.all (fun c => c.isDigit) then
    some (l.foldl (fun acc c => acc * 10 + (c.toNat - 48)) 0)
  else none

/-- Whether the second list starts with the first. -/
def startsWithSeq : List Char → List Char → Bool
  | [], _ => true
  | _ :: _, [] => false
  | p :: ps, x :: xs => p = x && startsWithSeq ps xs

/-- Whether the pattern occurs as a contiguous run; kernel-reducible
counterpart of Python's `pat in s`. -/
def containsSeq (pat : List Char) : List Char → Bool
  | [] => startsWithSeq pat []
  | x :: xs => startsWithSeq pat (x :: xs) || containsSeq pat xs

/-- Modelled from the spec: `parse_instrument_url` (in the absent `utils.py`)
derives the instrument id deterministically from the quote's embedded resource
URL as its last non-empty path segment. -/
def parse_instrument_url (url : String) : String :=
  match ((splitOnChar '/' url.data).filter (fun seg => seg ≠ [])).getLast? with
  | some seg => String.mk seg
  | none => ""

/-- Modelled from the spec: `parse_updated_at` (in the absent `utils.py`)
accepts an ISO-8601-like timestamp string or null; null passes through as
null.  The timestamp representation is kept as the string itself. -/
def parse_updated_at (s : Option String) : Option String :=
  s

/-- Scans whitespace-separated tokens for a numeric token followed by a unit
token (trailing punctuation stripped), per the spec's cooldown-phrase
format. -/
def findCooldown : List (List Char) → Option ℚ
  | w :: u :: rest =>
    match charsToNat? w with
    | some n =>
      let u' := ((splitOnChar '.' u).headD u)
      if u' = "seconds".data ∨ u' = "second".data then some (n : ℚ)
      else if u' = "minutes".data ∨ u' = "minute".data then some ((n * 60 : Nat) : ℚ)
      else findCooldown (u :: rest)
    | none => findCooldown (u :: rest)
  | _ => none

/-- Modelled from the spec: `parse_throttle_res` (in the absent `common.py`)
parses the retry-after phrase of a rate-limit `detail` string, tolerating
"[n] seconds" and "[n] minutes" and normalizing to seconds; an unparsable
phrase fails with a `MalformedCooldown` error. -/
def parse_throttle_res (detail : String) : Except PyExn ℚ :=
  match findCooldown (splitOnChar ' ' detail.data) with
  | some s => Except.ok s
  | none => Except.error PyExn.malformedCooldown

/-- Python truthiness of `res.get(key)` for an optional string field: absent
and empty string are falsy. -/
def truthyStr : Option String → Bool
  | none => false
  | some s => !(s = "")

/-- The `filter(lambda quote: quote != None, quotes)` step of `store_quotes`,
with the typed extraction of the surviving non-null entries. -/
def dropNulls (raw : List (Option Quote)) : List Quote :=
  raw.filterMap id

/-- The inner `map_quote` of `store_quotes`: extracts `instrument_id` from the
embedded resource URL, plucks the configured projection of fields, and parses
`updated_at`. -/
def map_quote (q : Quote) : QuoteDoc :=
  { instrument_id := parse_instrument_url q.instrument
    symbol := q.symbol
    bid_price := q.bid_price
    ask_price := q.ask_price
    updated_at := parse_updated_at q.updated_at }

/-- The inner `update_index_symbol` of `store_quotes`: one upsert op keyed by
instrument id, setting the current tradability data. -/
def update_index_symbol (now : String) (q : Quote) : IndexOp :=
  { filter_instrument_id := parse_instrument_url q.instrument
    timestamp := now
    has_traded := q.has_traded
    updated_at := parse_updated_at q.updated_at
    trading_halted := q.trading_halted }

/-- Python `"duplicate key" in errmsg` substring test. -/
def containsDuplicateKey (s : String) : Bool :=
  containsSeq "duplicate key".data s.data

/-- Embedding of `store_quotes(quotes, collection)`.  `now` is the value of
`datetime.datetime.utcnow()`; `idxRes` is the outcome of
`INDEX_COL.bulk_write(ops, ordered=False)` (`some e` means the call raised);
`insRes` is the outcome of `collection.insert_many(quotes, ordered=False)`.
Returns the event trace and whether an exception propagated. -/
def store_quotes (raw : List (Option Quote)) (now : String)
    (idxRes : Option StoreExn) (insRes : InsertOutcome) :
    List Event × PyResult :=
  let quotes := dropNulls raw
  let ops := quotes.map (update_index_symbol now)
  match idxRes with
  | some e => ([Event.pprintEv, Event.indexBulkWrite ops], PyResult.exn (PyExn.storeExn e))
  | none =>
    let docs := quotes.map map_quote
    match insRes with
    | InsertOutcome.ok =>
      ([Event.pprintEv, Event.indexBulkWrite ops, Event.insertQuotes docs], PyResult.ok)
    | InsertOutcome.bulkWriteError errs =>
      ([Event.pprintEv, Event.indexBulkWrite ops, Event.insertQuotes docs] ++
        (errs.filter (fun e => !(containsDuplicateKey e.errmsg))).map Event.logWriteError,
       PyResult.ok)

/-- Embedding of `store_popularities(popularity_map, collection)`.  The
Python dict is represented as an insertion-ordered association list with
unique keys; `insRes = some e` means `insert_many` raised. -/
def store_popularities (m : List (String × Int)) (now : String)
    (insRes : Option StoreExn) : List Event × PyResult :=
  let docs := m.map (fun p => PopDoc.mk now p.1 p.2)
  match insRes with
  | none => ([Event.pprintEv, Event.insertPopularities docs], PyResult.ok)
  | some e => ([Event.pprintEv, Event.insertPopularities docs], PyResult.exn (PyExn.storeExn e))

/-- Python `{**acc, k: v}` on an insertion-ordered dict: an existing key keeps
its position and takes the new value; a new key is appended. -/
def dictSet (acc : List (String × Int)) (k : String) (v : Int) :
    List (String × Int) :=
  if acc.any (fun p => p.1 = k) then
    acc.map (fun p => if p.1 = k then (k, v) else p)
  else acc ++ [(k, v)]

/-- Python `dict[k]` lookup (as an option), on the association-list model. -/
def dictLookup : List (String × Int) → String → Option Int
  | [], _ => none
  | p :: rest, k => if p.1 = k then some p.2 else dictLookup rest k

/-- A raw popularity datum in the upstream `results` list. -/
structure PopDatum where
  instrument : String
  num_open_positions : Int
  deriving DecidableEq, Repr

/-- The upstream response dict for a popularity request: a `results` list on
success or a `detail` string on rate-limit; either key may be absent. -/
structure PopResponse where
  results : Option (List PopDatum)
  detail : Option String
  deriving DecidableEq, Repr

/-- Outcome of one `TRADER.get_url(url)` call in `fetch_popularity`: a
response, or one of the exception classes the upstream client can raise. -/
inductive PFetch
  | ok (res : PopResponse)
  | readTimeout
  | typeError
  | jsonDecodeError
  deriving DecidableEq, Repr

/-- Oracle for one popularity fetch attempt: the fetch outcome, the value of
`utcnow()` during the store, and whether the popularity `insert_many`
raised. -/
structure PopAttempt where
  fetch : PFetch
  now : String
  insRes : Option StoreExn
  deriving DecidableEq, Repr

/-- The `reduce(reduce_popularity, res["results"], {})` fold of
`fetch_popularity`: keyed by the instrument id parsed from each datum's
instrument URL, value the open-position count, later data overriding
earlier. -/
def reduce_popularities (data : List PopDatum) : List (String × Int) :=
  data.foldl
    (fun acc d => dictSet acc (parse_instrument_url d.instrument) d.num_open_positions) []

/-- The upstream response dict for a quote request. -/
structure QuoteResponse where
  results : Option (List (Option Quote))
  detail : Option String
  deriving DecidableEq, Repr

/-- Outcome of one `TRADER.quote_data(symbols)` call in `fetch_quote`. -/
inductive QFetch
  | ok (res : QuoteResponse)
  | readTimeout
  | invalidTickerSymbol
  | typeError
  | jsonDecodeError
  deriving DecidableEq, Repr

/-- Oracle for one quote fetch attempt: the fetch outcome, the value of
`utcnow()` during the store, and the outcomes of the two database writes in
`store_quotes`. -/
structure QuoteAttempt where
  fetch : QFetch
  now : String
  idxRes : Option StoreExn
  insRes : InsertOutcome
  deriving DecidableEq, Repr

/-- Prepend a fixed event prefix to the trace of a recursive call. -/
def prependTrace (pre : List Event) :
    Option (List Event × PyResult) → Option (List Event × PyResult)
  | none => none
  | some (t, r) => some (pre ++ t, r)

/-- Embedding of `fetch_popularity(instrument_ids, collection, sleep, ...)`.
`fuel` bounds the recursion depth (the Python original recurses without
bound); `attempts` supplies one oracle per fetch attempt, consumed in order.
`none` means fuel or oracle exhaustion, never a behavior of the source. -/
def fetch_popularity : Nat → List PopAttempt → String → ℚ →
    Option (List Event × PyResult)
  | 0, _, _, _ => none
  | fuel + 1, attempts, instrument_ids, cd =>
    if instrument_ids = "__DONE" then
      some ([Event.logMsg
               "Received DONE message for popularity fetching; marking as complete in Redis...",
             Event.setPopularitiesFinished], PyResult.ok)
    else
      match attempts with
      | [] => none
      | a :: rest =>
        match a.fetch with
        | PFetch.ok res =>
          match res.results with
          | none =>
            -- `res["results"]` raises KeyError; in the handler
            -- `res.get("results")` is falsy, so the unknown-response branch
            -- runs: log, sleep 120, return.
            some ([Event.apiCall instrument_ids,
                   Event.logMsg "ERROR: Unexpected response received from popularity request:",
                   Event.sleepEv 120], PyResult.ok)
          | some data =>
            match (store_popularities (reduce_popularities data) a.now a.insRes).2 with
            | PyResult.ok =>
              some (Event.apiCall instrument_ids ::
                      (store_popularities (reduce_popularities data) a.now a.insRes).1 ++
                      [Event.sleepEv cd],
                    PyResult.ok)
            | PyResult.exn e =>
              some (Event.apiCall instrument_ids ::
                      (store_popularities (reduce_popularities data) a.now a.insRes).1,
                    PyResult.exn e)
        | PFetch.readTimeout =>
          prependTrace [Event.apiCall instrument_ids,
                        Event.logMsg "Read timeout while fetching popularity... Sleeping 30 seconds and re-trying.",
                        Event.sleepEv 30]
            (fetch_popularity fuel rest instrument_ids cd)
        | PFetch.typeError =>
          prependTrace [Event.apiCall instrument_ids,
                        Event.logMsg "Robinhood sent back garbage; ignoring.",
                        Event.sleepEv 30]
            (fetch_popularity fuel rest instrument_ids cd)
        | PFetch.jsonDecodeError =>
          prependTrace [Event.apiCall instrument_ids,
                        Event.logMsg "Robinhood API sending back HTML; backing off.",
                        Event.sleepEv 30]
            (fetch_popularity fuel rest instrument_ids cd)

/-- Embedding of `fetch_quote(symbols, collection, sleep, ...)`, in the same
oracle-and-fuel style as `fetch_popularity`. -/
def fetch_quote : Nat → List QuoteAttempt → String → ℚ →
    Option (List Event × PyResult)
  | 0, _, _, _ => none
  | fuel + 1, attempts, symbols, cd =>
    if symbols = "__DONE" then
      some ([Event.logMsg
               "Received DONE message for quote fetching; marking as complete in Redis...",
             Event.setQuotesFinished], PyResult.ok)
    else
      match attempts with
      | [] => none
      | a :: rest =>
        match a.fetch with
        | QFetch.ok res =>
          match res.results with
          | none =>
            -- `res["results"]` raises KeyError; the handler checks
            -- `res.get("detail")` truthiness.
            if truthyStr res.detail then
              match parse_throttle_res (res.detail.getD "") with
              | Except.error e => some ([Event.apiCall symbols], PyResult.exn e)
              | Except.ok cool =>
                prependTrace [Event.apiCall symbols,
                              Event.logMsg "Quote fetch request failed; waiting for cooldown...",
                              Event.sleepEv cool]
                  (fetch_quote fuel rest symbols cd)
            else
              some ([Event.apiCall symbols,
                     Event.logMsg "ERROR: Unexpected response received from quote request:",
                     Event.sleepEv 120], PyResult.ok)
          | some raw =>
            match (store_quotes raw a.now a.idxRes a.insRes).2 with
            | PyResult.ok =>
              some (Event.apiCall symbols :: (store_quotes raw a.now a.idxRes a.insRes).1 ++
                      [Event.sleepEv cd],
                    PyResult.ok)
            | PyResult.exn e =>
              some (Event.apiCall symbols :: (store_quotes raw a.now a.idxRes a.insRes).1,
                    PyResult.exn e)
        | QFetch.invalidTickerSymbol =>
          some ([Event.apiCall symbols, Event.logMsg "Error while fetching symbols:"],
                PyResult.ok)
        | QFetch.readTimeout =>
          prependTrace [Event.apiCall symbols,
                        Event.logMsg "Read timeout while fetching quotes... Sleeping 30 seconds and re-trying.",
                        Event.sleepEv 30]
            (fetch_quote fuel rest symbols cd)
        | QFetch.typeError => some ([Event.apiCall symbols], PyResult.exn PyExn.typeError)
        | QFetch.jsonDecodeError =>
          some ([Event.apiCall symbols], PyResult.exn PyExn.jsonDecodeError)

/-- Recognizes an upstream API call event. -/
def is_api_call : Event → Bool
  | Event.apiCall _ => true
  | _ => false

/-- Recognizes an upstream API call event carrying exactly the batch `b`. -/
def is_api_call_to (b : String) : Event → Bool
  | Event.apiCall s => s == b
  | _ => false

/-- Recognizes a persistence write event (index bulk write or either fact
insert). -/
def is_persistence : Event → Bool
  | Event.indexBulkWrite _ => true
  | Event.insertQuotes _ => true
  | Event.insertPopularities _ => true
  | _ => false

/-- Recognizes the quote-phase completion setter event. -/
def is_set_quotes_finished : Event → Bool
  | Event.setQuotesFinished => true
  | _ => false

/-- Recognizes the popularity-phase completion setter event. -/
def is_set_pops_finished : Event → Bool
  | Event.setPopularitiesFinished => true
  | _ => false

/-- Recognizes the quote fact insert event. -/
def is_insert_quotes : Event → Bool
  | Event.insertQuotes _ => true
  | _ => false

/-- Recognizes the index bulk write event. -/
def is_index_write : Event → Bool
  | Event.indexBulkWrite _ => true
  | _ => false

/-- Recognizes a logged row-failure event for the given write error. -/
def is_log_write_error (err : WriteError) : Event → Bool
  | Event.logWriteError e => e.errmsg == err.errmsg
  | _ => false

/-- Specification-side reading of "last value wins": the open-position count
carried by the last datum in the list whose instrument URL parses to `k`. -/
def lastPopularity : List PopDatum → String → Option Int
  | [], _ => none
  | d :: rest, k =>
    match lastPopularity rest k with
    | some v => some v
    | none =>
      if parse_instrument_url d.instrument = k then some d.num_open_positions else none

/-- A sample well-formed raw quote. -/
def qSample : Quote :=
  { instrument := "https://api.robinhood.com/instruments/abc123/"
    symbol := "AAPL"
    bid_price := "184.50"
    ask_price := "184.62"
    updated_at := some "2018-06-01T12:00:00Z"
    has_traded := some true
    trading_halted := some false }

/-- A quote attempt whose fetch succeeds with an empty result list and whose
writes succeed. -/
def qaOkEmpty : QuoteAttempt :=
  { fetch := QFetch.ok { results := some [], detail := none }
    now := "t0"
    idxRes := none
    insRes := InsertOutcome.ok }

/-- A quote attempt whose fetch raises a network read timeout. -/
def qaTimeout : QuoteAttempt :=
  { fetch := QFetch.readTimeout, now := "t0", idxRes := none, insRes := InsertOutcome.ok }

/-- A popularity attempt whose fetch succeeds with an empty result list and
whose insert succeeds. -/
def paOkEmpty : PopAttempt :=
  { fetch := PFetch.ok { results := some [], detail := none }
    now := "t0"
    insRes := none }

/-- A popularity attempt whose fetch raises a network read timeout. -/
def paTimeout : PopAttempt :=
  { fetch := PFetch.readTimeout, now := "t0", insRes := none }

theorem parse_throttle_res_error (d : String) (e : PyExn)
    (h : parse_throttle_res d = Except.error e) : e = PyExn.malformedCooldown := by
  unfold parse_throttle_res at h
  revert h
  cases findCooldown (splitOnChar ' ' d.data) with
  | none => intro h; exact (Except.error.inj h).symm
  | some s => intro h; exact Except.noConfusion h

theorem store_quotes_exn (raw : List (Option Quote)) (now : String)
    (idxRes : Option StoreExn) (insRes : InsertOutcome) (e : PyExn)
    (h : (store_quotes raw now idxRes insRes).2 = PyResult.exn e) :
    ∃ se, e = PyExn.storeExn se := by
  cases idxRes with
  | some ex => exact ⟨ex, (PyResult.exn.inj h).symm⟩
  | none =>
    cases insRes with
    | ok => exact PyResult.noConfusion h
    | bulkWriteError errs => exact PyResult.noConfusion h

theorem store_popularities_exn (m : List (String × Int)) (now : String)
    (insRes : Option StoreExn) (e : PyExn)
    (h : (store_popularities m now insRes).2 = PyResult.exn e) :
    ∃ se, e = PyExn.storeExn se := by
  cases insRes with
  | none => exact PyResult.noConfusion h
  | some ex => exact ⟨ex, (PyResult.exn.inj h).symm⟩

theorem store_quotes_trace_no_setter (raw : List (Option Quote)) (now : String)
    (idxRes : Option StoreExn) (insRes : InsertOutcome) :
    ∀ e ∈ (store_quotes raw now idxRes insRes).1, is_set_quotes_finished e = false := by
  intro e he
  cases idxRes with
  | some ex =>
    simp only [store_quotes, List.mem_cons, List.not_mem_nil, or_false] at he
    rcases he with h | h <;> subst h <;> rfl
  | none =>
    cases insRes with
    | ok =>
      simp only [store_quotes, List.mem_cons, List.not_mem_nil, or_false] at he
      rcases he with h | h | h <;> subst h <;> rfl
    | bulkWriteError errs =>
      simp only [store_quotes, List.mem_append, List.mem_cons, List.not_mem_nil, or_false,
        List.mem_map] at he
      rcases he with (h | h | h) | ⟨err, _, h⟩ <;> subst h <;> rfl

theorem store_popularities_trace_no_setter (m : List (String × Int)) (now : String)
    (insRes : Option StoreExn) :
    ∀ e ∈ (store_popularities m now insRes).1, is_set_pops_finished e = false := by
  intro e he
  cases insRes with
  | none =>
    simp only [store_popularities, List.mem_cons, List.not_mem_nil, or_false] at he
    rcases he with h | h <;> subst h <;> rfl
  | some ex =>
    simp only [store_popularities, List.mem_cons, List.not_mem_nil, or_false] at he
    rcases he with h | h <;> subst h <;> rfl

/-- C1: for a well-formed upstream response missing `results` but carrying a
retry-after `detail` phrase, the quote entry point parses the 5-second
cooldown, sleeps it, and retries the identical batch; the popularity entry
point however takes the unknown-response branch (its guard tests
`res.get("results")`, which is always falsy there), logging, sleeping the
default 120 seconds, and returning without any retry — refuting the claim for
`fetch_popularity` and exhibiting the code bug. -/
theorem c1_popularity_rate_limit_code_bug :
  parse_throttle_res "Expected available in 5 seconds." = Except.ok 5
  ∧ fetch_popularity 3
      [{ fetch := PFetch.ok { results := none,
                              detail := some "Expected available in 5 seconds." },
         now := "t0", insRes := none }] "1,2,3" 1
      = some ([Event.apiCall "1,2,3",
               Event.logMsg "ERROR: Unexpected response received from popularity request:",
               Event.sleepEv 120], PyResult.ok)
  ∧ fetch_quote 2
      [{ fetch := QFetch.ok { results := none,
                              detail := some "Expected available in 5 seconds." },
         now := "t0", idxRes := none, insRes := InsertOutcome.ok }, qaOkEmpty] "AAPL" 1
      = some ([Event.apiCall "AAPL",
               Event.logMsg "Quote fetch request failed; waiting for cooldown...",
               Event.sleepEv 5,
               Event.apiCall "AAPL", Event.pprintEv, Event.indexBulkWrite [],
               Event.insertQuotes [], Event.sleepEv 1], PyResult.ok) :=
  ⟨by decide, by decide, by decide⟩

/-- C2 counterexample: a quote message whose fetch raises a JSON-decode error
(the upstream sending back HTML) makes `fetch_quote` propagate the exception
to its caller — `fetch_quote` has no handler for it, refuting the claim that
no exception from a single bad message ever escapes an entry point. -/
theorem c2_counterexample_json_escapes_quote :
  fetch_quote 1 [{ fetch := QFetch.jsonDecodeError, now := "t0", idxRes := none,
                   insRes := InsertOutcome.ok }] "AAPL" 1
    = some ([Event.apiCall "AAPL"], PyResult.exn PyExn.jsonDecodeError) := by decide

/-- C3 counterexample: for the raw batch `[null, qSample]`, the index bulk
write recorded by `store_quotes` carries one op, not one per raw item — the
ops are built from the null-filtered list, refuting the claim that they are
built from every item the API returned. -/
theorem c3_counterexample_null_dropped_from_index :
  (store_quotes [none, some qSample] "t0" none InsertOutcome.ok).1[1]?
    = some (Event.indexBulkWrite [update_index_symbol "t0" qSample])
  ∧ [update_index_symbol "t0" qSample].length
      ≠ ([none, some qSample] : List (Option Quote)).length :=
  ⟨by decide, by decide⟩

/-- C3 amended: the index upsert operations are built from the null-filtered
entries — exactly one op per non-null raw item (the same entries that feed
the quote fact records), nulls contributing none. -/
theorem c3_amended_index_ops_from_filtered (raw : List (Option Quote)) (now : String)
    (idxRes : Option StoreExn) (insRes : InsertOutcome) :
  (store_quotes raw now idxRes insRes).1[1]?
      = some (Event.indexBulkWrite ((raw.filterMap id).map (update_index_symbol now)))
  ∧ ((raw.filterMap id).map (update_index_symbol now)).length = (raw.filterMap id).length
  ∧ (raw.filterMap id).length ≤ raw.length := by
  refine ⟨?_, by simp, List.length_filterMap_le _ _⟩
  cases idxRes <;> cases insRes <;> rfl

/-- C4 counterexample: when the index bulk write raises, `store_quotes` exits
with the exception before the quote fact insert is ever attempted — the index
failure blocks the quote fact write, refuting the independent-failure-domain
claim. -/
theorem c4_counterexample_index_failure_blocks_insert :
  store_quotes [some qSample] "t0" (some StoreExn.bulkWriteExn) InsertOutcome.ok
    = ([Event.pprintEv, Event.indexBulkWrite [update_index_symbol "t0" qSample]],
       PyResult.exn (PyExn.storeExn StoreExn.bulkWriteExn))
  ∧ ((store_quotes [some qSample] "t0" (some StoreExn.bulkWriteExn) InsertOutcome.ok).1.all
       (fun e => !(is_insert_quotes e))) = true :=
  ⟨by decide, by decide⟩

/-- C4 amended: the isolation holds in one direction only — a quote-fact
insert failure never disturbs the index write (already issued, and the call
still returns normally), but an index bulk-write exception propagates and
prevents the quote fact insert. -/
theorem c4_amended_one_way_isolation (raw : List (Option Quote)) (now : String)
    (insRes : InsertOutcome) (e : StoreExn) :
  ((store_quotes raw now none insRes).2 = PyResult.ok
    ∧ (store_quotes raw now none insRes).1.countP is_insert_quotes = 1
    ∧ (store_quotes raw now none insRes).1.countP is_index_write = 1)
  ∧ ((store_quotes raw now (some e) insRes).2 = PyResult.exn (PyExn.storeExn e)
    ∧ (store_quotes raw now (some e) insRes).1.countP is_insert_quotes = 0
    ∧ (store_quotes raw now (some e) insRes).1.countP is_index_write = 1) := by
  constructor
  · refine ⟨?_, ?_, ?_⟩ <;>
      cases insRes <;>
        simp [store_quotes, List.countP_cons, is_insert_quotes, is_index_write,
          List.countP_eq_zero, List.mem_map]
  · refine ⟨rfl, ?_, ?_⟩ <;>
      simp [store_quotes, List.countP_cons, is_insert_quotes, is_index_write]

/-- C5: on the sentinel `__DONE`, each entry point invokes its mode-specific
phase-completion setter exactly once, makes no upstream API call, performs no
persistence write, and returns immediately — regardless of the attempt
oracles. -/
theorem c5_sentinel_short_circuit (fuel : Nat) (qas : List QuoteAttempt)
    (pas : List PopAttempt) (cdq cdp : ℚ) :
  ∃ tq tp : List Event,
    fetch_quote (fuel + 1) qas "__DONE" cdq = some (tq, PyResult.ok)
    ∧ fetch_popularity (fuel + 1) pas "__DONE" cdp = some (tp, PyResult.ok)
    ∧ tq.countP is_set_quotes_finished = 1
    ∧ tp.countP is_set_pops_finished = 1
    ∧ tq.all (fun e => !(is_api_call e || is_persistence e)) = true
    ∧ tp.all (fun e => !(is_api_call e || is_persistence e)) = true := by
  refine ⟨_, _, rfl, rfl, ?_, ?_, ?_, ?_⟩ <;> decide

/-- C6: the normalized quote fact records inserted by `store_quotes` are the
null-filtered raw entries mapped through `map_quote`: at most as many records
as raw items, no null survives, and each record's `instrument_id` is the id
parsed from that quote's embedded resource URL. -/
theorem c6_normalized_quote_records (raw : List (Option Quote)) (now : String)
    (insRes : InsertOutcome) :
  (store_quotes raw now none insRes).1[2]?
      = some (Event.insertQuotes ((raw.filterMap id).map map_quote))
  ∧ ((raw.filterMap id).map map_quote).length ≤ raw.length
  ∧ ((raw.filterMap id).map map_quote).map QuoteDoc.instrument_id
      = (raw.filterMap id).map (fun q => parse_instrument_url q.instrument) := by
  refine ⟨?_, ?_, ?_⟩
  · cases insRes <;> simp [store_quotes, dropNulls]
  · simpa using List.length_filterMap_le id raw
  · simp [List.map_map, map_quote, Function.comp]

/-- C8: when the quote fact bulk insert fails with a batch-write error,
`store_quotes` returns normally with the insert still attempted; a row
failure is logged exactly when its error message does not indicate a
duplicate key, and duplicate-key failures are swallowed silently. -/
theorem c8_duplicate_keys_swallowed (raw : List (Option Quote)) (now : String)
    (errs : List WriteError) :
  (store_quotes raw now none (InsertOutcome.bulkWriteError errs)).2 = PyResult.ok
  ∧ (store_quotes raw now none (InsertOutcome.bulkWriteError errs)).1.countP
      is_insert_quotes = 1
  ∧ (errs.all (fun err =>
      ((store_quotes raw now none (InsertOutcome.bulkWriteError errs)).1.any
          (is_log_write_error err))
        == !(containsDuplicateKey err.errmsg))) = true := by
  refine ⟨rfl, ?_, ?_⟩
  · simp [store_quotes, List.countP_cons, is_insert_quotes,
      List.countP_eq_zero, List.mem_map]
  · rw [List.all_eq_true]
    intro err hmem
    rw [beq_iff_eq]
    have htr : (store_quotes raw now none (InsertOutcome.bulkWriteError errs)).1
        = [Event.pprintEv,
           Event.indexBulkWrite ((raw.filterMap id).map (update_index_symbol now)),
           Event.insertQuotes ((raw.filterMap id).map map_quote)] ++
          (errs.filter (fun e => !(containsDuplicateKey e.errmsg))).map
            Event.logWriteError := rfl
    rw [htr]
    simp only [List.any_append, List.any_cons, List.any_nil,
      is_log_write_error, Bool.or_false, Bool.false_or]
    cases hdup : containsDuplicateKey err.errmsg with
    | true =>
      simp only [Bool.not_true]
      rw [List.any_eq_false]
      intro ev hev
      rcases List.mem_map.1 hev with ⟨w, hw, rfl⟩
      rcases List.mem_filter.1 hw with ⟨_, hkeep⟩
      intro hp
      have hmsg : w.errmsg = err.errmsg := by
        simpa [is_log_write_error] using hp
      rw [Bool.not_eq_true'] at hkeep
      rw [hmsg, hdup] at hkeep
      exact Bool.noConfusion hkeep
    | false =>
      simp only [Bool.not_false]
      rw [List.any_eq_true]
      refine ⟨Event.logWriteError err,
        List.mem_map_of_mem _ (List.mem_filter.2 ⟨hmem, by rw [hdup]; rfl⟩), ?_⟩
      simp [is_log_write_error]

theorem dictLookup_map_replace (k : String) (v : Int) (k' : String) (hk : ¬ k' = k) :
    ∀ acc : List (String × Int),
      dictLookup (acc.map (fun p => if p.1 = k then (k, v) else p)) k'
        = dictLookup acc k' := by
  intro acc
  induction acc with
  | nil => rfl
  | cons p rest ih =>
    simp only [List.map_cons]
    by_cases hp : p.1 = k
    · rw [if_pos hp]
      simp only [dictLookup]
      rw [if_neg (fun h => hk (h.symm)), if_neg (fun h => hk (h.symm.trans hp))]
      exact ih
    · rw [if_neg hp]
      simp only [dictLookup]
      by_cases hpk : p.1 = k'
      · rw [if_pos hpk, if_pos hpk]
      · rw [if_neg hpk, if_neg hpk]
        exact ih

theorem dictLookup_map_self (k : String) (v : Int) :
    ∀ acc : List (String × Int), acc.any (fun p => p.1 = k) = true →
      dictLookup (acc.map (fun p => if p.1 = k then (k, v) else p)) k = some v := by
  intro acc
  induction acc with
  | nil => intro h; exact Bool.noConfusion h
  | cons p rest ih =>
    intro h
    simp only [List.map_cons]
    by_cases hp : p.1 = k
    · rw [if_pos hp]
      simp [dictLookup]
    · rw [if_neg hp]
      simp only [dictLookup]
      rw [if_neg hp]
      apply ih
      simpa [List.any_cons, hp] using h

theorem dictLookup_eq_none (k : String) :
    ∀ acc : List (String × Int), acc.any (fun p => p.1 = k) = false →
      dictLookup acc k = none := by
  intro acc
  induction acc with
  | nil => intro _; rfl
  | cons p rest ih =>
    intro h
    simp only [List.any_cons, Bool.or_eq_false_iff] at h
    obtain ⟨h1, h2⟩ := h
    simp only [dictLookup]
    rw [if_neg (by simpa using h1)]
    exact ih h2

theorem dictLookup_append (k : String) (l l' : List (String × Int)) :
    dictLookup (l ++ l') k =
      match dictLookup l k with
      | some v => some v
      | none => dictLookup l' k := by
  induction l with
  | nil => rfl
  | cons p rest ih =>
    simp only [List.cons_append, dictLookup]
    by_cases hp : p.1 = k
    · simp [hp]
    · simp only [if_neg hp]
      exact ih

theorem dictLookup_dictSet (acc : List (String × Int)) (k : String) (v : Int)
    (k' : String) :
    dictLookup (dictSet acc k v) k'
      = if k' = k then some v else dictLookup acc k' := by
  unfold dictSet
  by_cases hany : acc.any (fun p => p.1 = k) = true
  · rw [if_pos hany]
    by_cases hk : k' = k
    · rw [if_pos hk, hk]
      exact dictLookup_map_self k v acc hany
    · rw [if_neg hk]
      exact dictLookup_map_replace k v k' hk acc
  · rw [if_neg hany]
    have hf : acc.any (fun p => p.1 = k) = false := by
      revert hany; cases acc.any (fun p => p.1 = k) <;> simp
    rw [dictLookup_append]
    by_cases hk : k' = k
    · rw [if_pos hk, hk, dictLookup_eq_none k acc hf]
      simp [dictLookup]
    · rw [if_neg hk]
      cases hl : dictLookup acc k' with
      | some w => rfl
      | none =>
        show dictLookup [(k, v)] k' = none
        simp only [dictLookup]
        rw [if_neg (fun h => hk (h.symm))]

theorem dictSet_keys_of_mem (acc : List (String × Int)) (k : String) (v : Int)
    (hany : acc.any (fun p => p.1 = k) = true) :
    (dictSet acc k v).map Prod.fst = acc.map Prod.fst := by
  unfold dictSet
  rw [if_pos hany, List.map_map]
  apply List.map_congr_left
  intro p _
  by_cases hp : p.1 = k
  · simp [Function.comp, hp]
  · simp [Function.comp, hp]

theorem dictSet_keys_nodup (acc : List (String × Int)) (k : String) (v : Int)
    (h : (acc.map Prod.fst).Nodup) :
    ((dictSet acc k v).map Prod.fst).Nodup := by
  by_cases hany : acc.any (fun p => p.1 = k) = true
  · rw [dictSet_keys_of_mem acc k v hany]
    exact h
  · unfold dictSet
    rw [if_neg hany, List.map_append]
    rw [List.nodup_append_comm]
    simp only [List.map_cons, List.map_nil, List.singleton_append]
    rw [List.nodup_cons]
    refine ⟨?_, h⟩
    intro hmem
    rcases List.mem_map.1 hmem with ⟨p, hp, hfst⟩
    exact hany (List.any_eq_true.2 ⟨p, hp, by simp [hfst]⟩)

theorem reduce_fold_lookup (k : String) :
    ∀ (data : List PopDatum) (acc : List (String × Int)),
      dictLookup (data.foldl (fun acc d =>
          dictSet acc (parse_instrument_url d.instrument) d.num_open_positions) acc) k
        = match lastPopularity data k with
          | some v => some v
          | none => dictLookup acc k := by
  intro data
  induction data with
  | nil => intro acc; rfl
  | cons d rest ih =>
    intro acc
    rw [List.foldl_cons, ih, dictLookup_dictSet]
    cases hl : lastPopularity rest k with
    | some w => simp [lastPopularity, hl]
    | none =>
      by_cases hkd : parse_instrument_url d.instrument = k
      · simp [lastPopularity, hl, hkd]
      · simp only [lastPopularity, hl]
        rw [if_neg hkd, if_neg (fun h => hkd (h.symm))]

theorem reduce_fold_nodup :
    ∀ (data : List PopDatum) (acc : List (String × Int)),
      (acc.map Prod.fst).Nodup →
      ((data.foldl (fun acc d =>
          dictSet acc (parse_instrument_url d.instrument) d.num_open_positions)
        acc).map Prod.fst).Nodup := by
  intro data
  induction data with
  | nil => intro acc h; exact h
  | cons d rest ih =>
    intro acc h
    rw [List.foldl_cons]
    exact ih _ (dictSet_keys_nodup _ _ _ h)

/-- C7: the popularity fold yields an insertion-ordered mapping with unique
keys — each key the instrument id parsed from a datum's instrument URL, its
value the open-position count of the last datum in the batch with that id —
and `store_popularities` inserts exactly one `PopDoc` row per key of the
mapping. -/
theorem c7_popularity_fold_last_wins (data : List PopDatum) (now : String) :
  ((reduce_popularities data).map Prod.fst).Nodup
  ∧ (∀ k, dictLookup (reduce_popularities data) k = lastPopularity data k)
  ∧ (store_popularities (reduce_popularities data) now none).1
      = [Event.pprintEv,
         Event.insertPopularities ((reduce_popularities data).map
           (fun p => PopDoc.mk now p.1 p.2))]
  ∧ (((reduce_popularities data).map (fun p => PopDoc.mk now p.1 p.2)).map
       PopDoc.instrument_id)
      = (reduce_popularities data).map Prod.fst := by
  refine ⟨?_, ?_, rfl, ?_⟩
  · exact reduce_fold_nodup data [] (by simp)
  · intro k
    have h := reduce_fold_lookup k data []
    unfold reduce_popularities
    cases hl : lastPopularity data k <;> rw [hl] at h <;> exact h
  · simp [List.map_map, Function.comp]

theorem store_quotes_countP_no_setter (raw : List (Option Quote)) (now : String)
    (idxRes : Option StoreExn) (insRes : InsertOutcome) :
    List.countP is_set_quotes_finished (store_quotes raw now idxRes insRes).1 = 0 := by
  apply List.countP_eq_zero.2
  intro e he
  rw [store_quotes_trace_no_setter _ _ _ _ e he]
  exact Bool.noConfusion

theorem store_popularities_countP_no_setter (m : List (String × Int)) (now : String)
    (insRes : Option StoreExn) :
    List.countP is_set_pops_finished (store_popularities m now insRes).1 = 0 := by
  apply List.countP_eq_zero.2
  intro e he
  rw [store_popularities_trace_no_setter _ _ _ e he]
  exact Bool.noConfusion

theorem fetch_quote_nil (fuel : Nat) (b : String) (cd : ℚ) (hb : ¬ b = "__DONE") :
    fetch_quote (fuel + 1) [] b cd = none := by
  show (if b = "__DONE" then _ else _) = _
  rw [if_neg hb]

theorem fetch_quote_cons (fuel : Nat) (a : QuoteAttempt) (rest : List QuoteAttempt)
    (b : String) (cd : ℚ) :
    fetch_quote (fuel + 1) (a :: rest) b cd
      = if b = "__DONE" then
          some ([Event.logMsg
                   "Received DONE message for quote fetching; marking as complete in Redis...",
                 Event.setQuotesFinished], PyResult.ok)
        else
          match a.fetch with
          | QFetch.ok res =>
            match res.results with
            | none =>
              if truthyStr res.detail then
                match parse_throttle_res (res.detail.getD "") with
                | Except.error e => some ([Event.apiCall b], PyResult.exn e)
                | Except.ok cool =>
                  prependTrace [Event.apiCall b,
                    Event.logMsg "Quote fetch request failed; waiting for cooldown...",
                    Event.sleepEv cool] (fetch_quote fuel rest b cd)
              else
                some ([Event.apiCall b,
                       Event.logMsg "ERROR: Unexpected response received from quote request:",
                       Event.sleepEv 120], PyResult.ok)
            | some raw =>
              match (store_quotes raw a.now a.idxRes a.insRes).2 with
              | PyResult.ok =>
                some (Event.apiCall b :: (store_quotes raw a.now a.idxRes a.insRes).1 ++
                        [Event.sleepEv cd],
                      PyResult.ok)
              | PyResult.exn e =>
                some (Event.apiCall b :: (store_quotes raw a.now a.idxRes a.insRes).1,
                      PyResult.exn e)
          | QFetch.invalidTickerSymbol =>
            some ([Event.apiCall b, Event.logMsg "Error while fetching symbols:"],
                  PyResult.ok)
          | QFetch.readTimeout =>
            prependTrace [Event.apiCall b,
              Event.logMsg "Read timeout while fetching quotes... Sleeping 30 seconds and re-trying.",
              Event.sleepEv 30] (fetch_quote fuel rest b cd)
          | QFetch.typeError => some ([Event.apiCall b], PyResult.exn PyExn.typeError)
          | QFetch.jsonDecodeError =>
            some ([Event.apiCall b], PyResult.exn PyExn.jsonDecodeError) := rfl

theorem fetch_popularity_nil (fuel : Nat) (b : String) (cd : ℚ) (hb : ¬ b = "__DONE") :
    fetch_popularity (fuel + 1) [] b cd = none := by
  show (if b = "__DONE" then _ else _) = _
  rw [if_neg hb]

theorem fetch_popularity_cons (fuel : Nat) (a : PopAttempt) (rest : List PopAttempt)
    (b : String) (cd : ℚ) :
    fetch_popularity (fuel + 1) (a :: rest) b cd
      = if b = "__DONE" then
          some ([Event.logMsg
                   "Received DONE message for popularity fetching; marking as complete in Redis...",
                 Event.setPopularitiesFinished], PyResult.ok)
        else
          match a.fetch with
          | PFetch.ok res =>
            match res.results with
            | none =>
              some ([Event.apiCall b,
                     Event.logMsg "ERROR: Unexpected response received from popularity request:",
                     Event.sleepEv 120], PyResult.ok)
            | some data =>
              match (store_popularities (reduce_popularities data) a.now a.insRes).2 with
              | PyResult.ok =>
                some (Event.apiCall b ::
                        (store_popularities (reduce_popularities data) a.now a.insRes).1 ++
                        [Event.sleepEv cd],
                      PyResult.ok)
              | PyResult.exn e =>
                some (Event.apiCall b ::
                        (store_popularities (reduce_popularities data) a.now a.insRes).1,
                      PyResult.exn e)
          | PFetch.readTimeout =>
            prependTrace [Event.apiCall b,
              Event.logMsg "Read timeout while fetching popularity... Sleeping 30 seconds and re-trying.",
              Event.sleepEv 30] (fetch_popularity fuel rest b cd)
          | PFetch.typeError =>
            prependTrace [Event.apiCall b,
              Event.logMsg "Robinhood sent back garbage; ignoring.",
              Event.sleepEv 30] (fetch_popularity fuel rest b cd)
          | PFetch.jsonDecodeError =>
            prependTrace [Event.apiCall b,
              Event.logMsg "Robinhood API sending back HTML; backing off.",
              Event.sleepEv 30] (fetch_popularity fuel rest b cd) := rfl

theorem fetch_quote_no_setter :
    ∀ (fuel : Nat) (qas : List QuoteAttempt) (b : String) (cd : ℚ)
      (t : List Event) (r : PyResult), b ≠ "__DONE" →
      fetch_quote fuel qas b cd = some (t, r) →
      t.countP is_set_quotes_finished = 0 := by
  intro fuel
  induction fuel with
  | zero =>
    intro qas b cd t r hb h
    exact Option.noConfusion h
  | succ n ih =>
    intro qas b cd t r hb h
    cases qas with
    | nil => rw [fetch_quote_nil n b cd hb] at h; exact Option.noConfusion h
    | cons a rest =>
      rw [fetch_quote_cons, if_neg hb] at h
      split at h
      · -- fetch returned a response
        split at h
        · -- the `results` field is absent
          split at h
          · -- `detail` truthy: rate-limit handler
            split at h
            · -- malformed cooldown phrase: exception propagates
              injection h with hp
              injection hp with ht hr
              subst ht
              simp [List.countP_cons, is_set_quotes_finished]
            · -- cooldown parsed: sleep then retry the batch
              cases hrec : fetch_quote n rest b cd with
              | none => rw [hrec] at h; exact Option.noConfusion h
              | some tr =>
                rw [hrec] at h
                injection h with hp
                injection hp with ht hr
                subst ht
                rw [List.countP_append, ih rest b cd tr.1 tr.2 hb hrec]
                simp [List.countP_cons, is_set_quotes_finished]
          · -- `detail` falsy: unknown-response branch
            injection h with hp
            injection hp with ht hr
            subst ht
            simp [List.countP_cons, is_set_quotes_finished]
        · -- a `results` list is present: store and pace
          split at h
          · injection h with hp
            injection hp with ht hr
            subst ht
            simp [List.countP_append, List.countP_cons, is_set_quotes_finished,
              store_quotes_countP_no_setter]
          · injection h with hp
            injection hp with ht hr
            subst ht
            simp [List.countP_cons, is_set_quotes_finished,
              store_quotes_countP_no_setter]
      · -- invalid ticker symbol: log and abandon
        injection h with hp
        injection hp with ht hr
        subst ht
        simp [List.countP_cons, is_set_quotes_finished]
      · -- read timeout: sleep 30 then retry
        cases hrec : fetch_quote n rest b cd with
        | none => rw [hrec] at h; exact Option.noConfusion h
        | some tr =>
          rw [hrec] at h
          injection h with hp
          injection hp with ht hr
          subst ht
          rw [List.countP_append, ih rest b cd tr.1 tr.2 hb hrec]
          simp [List.countP_cons, is_set_quotes_finished]
      · -- type error propagates
        injection h with hp
        injection hp with ht hr
        subst ht
        simp [List.countP_cons, is_set_quotes_finished]
      · -- JSON decode error propagates
        injection h with hp
        injection hp with ht hr
        subst ht
        simp [List.countP_cons, is_set_quotes_finished]

theorem fetch_popularity_no_setter :
    ∀ (fuel : Nat) (pas : List PopAttempt) (b : String) (cd : ℚ)
      (t : List Event) (r : PyResult), b ≠ "__DONE" →
      fetch_popularity fuel pas b cd = some (t, r) →
      t.countP is_set_pops_finished = 0 := by
  intro fuel
  induction fuel with
  | zero =>
    intro pas b cd t r hb h
    exact Option.noConfusion h
  | succ n ih =>
    intro pas b cd t r hb h
    cases pas with
    | nil => rw [fetch_popularity_nil n b cd hb] at h; exact Option.noConfusion h
    | cons a rest =>
      rw [fetch_popularity_cons, if_neg hb] at h
      split at h
      · -- fetch returned a response
        split at h
        · -- `results` absent: unknown-response branch
          injection h with hp
          injection hp with ht hr
          subst ht
          simp [List.countP_cons, is_set_pops_finished]
        · -- `results` present: fold, store, pace
          split at h
          · injection h with hp
            injection hp with ht hr
            subst ht
            simp [List.countP_append, List.countP_cons, is_set_pops_finished,
              store_popularities_countP_no_setter]
          · injection h with hp
            injection hp with ht hr
            subst ht
            simp [List.countP_cons, is_set_pops_finished,
              store_popularities_countP_no_setter]
      · -- read timeout: sleep 30 then retry
        cases hrec : fetch_popularity n rest b cd with
        | none => rw [hrec] at h; exact Option.noConfusion h
        | some tr =>
          rw [hrec] at h
          injection h with hp
          injection hp with ht hr
          subst ht
          rw [List.countP_append, ih rest b cd tr.1 tr.2 hb hrec]
          simp [List.countP_cons, is_set_pops_finished]
      · -- type error from garbage data: retry
        cases hrec : fetch_popularity n rest b cd with
        | none => rw [hrec] at h; exact Option.noConfusion h
        | some tr =>
          rw [hrec] at h
          injection h with hp
          injection hp with ht hr
          subst ht
          rw [List.countP_append, ih rest b cd tr.1 tr.2 hb hrec]
          simp [List.countP_cons, is_set_pops_finished]
      · -- JSON decode error from HTML: retry
        cases hrec : fetch_popularity n rest b cd with
        | none => rw [hrec] at h; exact Option.noConfusion h
        | some tr =>
          rw [hrec] at h
          injection h with hp
          injection hp with ht hr
          subst ht
          rw [List.countP_append, ih rest b cd tr.1 tr.2 hb hrec]
          simp [List.countP_cons, is_set_pops_finished]

theorem fetch_quote_exn_classes :
    ∀ (fuel : Nat) (qas : List QuoteAttempt) (b : String) (cd : ℚ)
      (t : List Event) (e : PyExn),
      fetch_quote fuel qas b cd = some (t, PyResult.exn e) →
      e = PyExn.jsonDecodeError ∨ e = PyExn.typeError ∨ e = PyExn.malformedCooldown
        ∨ ∃ se, e = PyExn.storeExn se := by
  intro fuel
  induction fuel with
  | zero => intro qas b cd t e h; exact Option.noConfusion h
  | succ n ih =>
    intro qas b cd t e h
    by_cases hb : b = "__DONE"
    · subst hb
      have hs : fetch_quote (n + 1) qas "__DONE" cd
          = some ([Event.logMsg
                     "Received DONE message for quote fetching; marking as complete in Redis...",
                   Event.setQuotesFinished], PyResult.ok) := rfl
      rw [hs] at h
      injection h with hp
      injection hp with ht hr
      exact PyResult.noConfusion hr
    · cases qas with
      | nil => rw [fetch_quote_nil n b cd hb] at h; exact Option.noConfusion h
      | cons a rest =>
        rw [fetch_quote_cons, if_neg hb] at h
        split at h
        · split at h
          · split at h
            · split at h
              · -- malformed cooldown phrase propagates
                rename_i e' heq
                injection h with hp
                injection hp with ht hr
                right; right; left
                exact (PyResult.exn.inj hr) ▸ parse_throttle_res_error _ e' heq
              · -- cooldown parsed: recurse
                cases hrec : fetch_quote n rest b cd with
                | none => rw [hrec] at h; exact Option.noConfusion h
                | some tr =>
                  rw [hrec] at h
                  injection h with hp
                  injection hp with ht hr
                  have hrec' : fetch_quote n rest b cd = some (tr.1, PyResult.exn e) := by
                    rw [← hr]; exact hrec
                  exact ih rest b cd tr.1 e hrec'
            · -- unknown-response branch returns normally
              injection h with hp
              injection hp with ht hr
              exact PyResult.noConfusion hr
          · -- store and pace
            split at h
            · injection h with hp
              injection hp with ht hr
              exact PyResult.noConfusion hr
            · rename_i e' heq
              injection h with hp
              injection hp with ht hr
              obtain ⟨se, hse⟩ := store_quotes_exn _ _ _ _ e' heq
              right; right; right
              exact ⟨se, (PyResult.exn.inj hr) ▸ hse⟩
        · -- invalid ticker returns normally
          injection h with hp
          injection hp with ht hr
          exact PyResult.noConfusion hr
        · -- read timeout: recurse
          cases hrec : fetch_quote n rest b cd with
          | none => rw [hrec] at h; exact Option.noConfusion h
          | some tr =>
            rw [hrec] at h
            injection h with hp
            injection hp with ht hr
            have hrec' : fetch_quote n rest b cd = some (tr.1, PyResult.exn e) := by
              rw [← hr]; exact hrec
            exact ih rest b cd tr.1 e hrec'
        · -- TypeError propagates
          injection h with hp
          injection hp with ht hr
          right; left
          exact (PyResult.exn.inj hr).symm
        · -- JSONDecodeError propagates
          injection h with hp
          injection hp with ht hr
          left
          exact (PyResult.exn.inj hr).symm

theorem fetch_popularity_exn_classes :
    ∀ (fuel : Nat) (pas : List PopAttempt) (b : String) (cd : ℚ)
      (t : List Event) (e : PyExn),
      fetch_popularity fuel pas b cd = some (t, PyResult.exn e) →
      ∃ se, e = PyExn.storeExn se := by
  intro fuel
  induction fuel with
  | zero => intro pas b cd t e h; exact Option.noConfusion h
  | succ n ih =>
    intro pas b cd t e h
    by_cases hb : b = "__DONE"
    · subst hb
      have hs : fetch_popularity (n + 1) pas "__DONE" cd
          = some ([Event.logMsg
                     "Received DONE message for popularity fetching; marking as complete in Redis...",
                   Event.setPopularitiesFinished], PyResult.ok) := rfl
      rw [hs] at h
      injection h with hp
      injection hp with ht hr
      exact PyResult.noConfusion hr
    · cases pas with
      | nil => rw [fetch_popularity_nil n b cd hb] at h; exact Option.noConfusion h
      | cons a rest =>
        rw [fetch_popularity_cons, if_neg hb] at h
        split at h
        · split at h
          · injection h with hp
            injection hp with ht hr
            exact PyResult.noConfusion hr
          · split at h
            · injection h with hp
              injection hp with ht hr
              exact PyResult.noConfusion hr
            · rename_i e' heq
              injection h with hp
              injection hp with ht hr
              obtain ⟨se, hse⟩ := store_popularities_exn _ _ _ e' heq
              exact ⟨se, (PyResult.exn.inj hr) ▸ hse⟩
        · cases hrec : fetch_popularity n rest b cd with
          | none => rw [hrec] at h; exact Option.noConfusion h
          | some tr =>
            rw [hrec] at h
            injection h with hp
            injection hp with ht hr
            have hrec' : fetch_popularity n rest b cd = some (tr.1, PyResult.exn e) := by
              rw [← hr]; exact hrec
            exact ih rest b cd tr.1 e hrec'
        · cases hrec : fetch_popularity n rest b cd with
          | none => rw [hrec] at h; exact Option.noConfusion h
          | some tr =>
            rw [hrec] at h
            injection h with hp
            injection hp with ht hr
            have hrec' : fetch_popularity n rest b cd = some (tr.1, PyResult.exn e) := by
              rw [← hr]; exact hrec
            exact ih rest b cd tr.1 e hrec'
        · cases hrec : fetch_popularity n rest b cd with
          | none => rw [hrec] at h; exact Option.noConfusion h
          | some tr =>
            rw [hrec] at h
            injection h with hp
            injection hp with ht hr
            have hrec' : fetch_popularity n rest b cd = some (tr.1, PyResult.exn e) := by
              rw [← hr]; exact hrec
            exact ih rest b cd tr.1 e hrec'

/-- C2 corrected: not every bad message returns normally.  The handled
classes are wider in popularity mode than in quote mode: any exception
escaping `fetch_popularity` is a persistence-layer exception, while
`fetch_quote` can also leak a JSON-decode error, a TypeError, or a malformed
cooldown phrase — all other classifications are recovered or swallowed. -/
theorem c2_amended_exn_classes :
  (∀ (fuel : Nat) (qas : List QuoteAttempt) (b : String) (cd : ℚ)
     (t : List Event) (e : PyExn),
     fetch_quote fuel qas b cd = some (t, PyResult.exn e) →
     e = PyExn.jsonDecodeError ∨ e = PyExn.typeError ∨ e = PyExn.malformedCooldown
       ∨ ∃ se, e = PyExn.storeExn se)
  ∧ (∀ (fuel : Nat) (pas : List PopAttempt) (b : String) (cd : ℚ)
     (t : List Event) (e : PyExn),
     fetch_popularity fuel pas b cd = some (t, PyResult.exn e) →
     ∃ se, e = PyExn.storeExn se) :=
  ⟨fetch_quote_exn_classes, fetch_popularity_exn_classes⟩

theorem c2_amended_exn_classes_witness :
  (PyExn.jsonDecodeError = PyExn.jsonDecodeError ∨ PyExn.jsonDecodeError = PyExn.typeError
    ∨ PyExn.jsonDecodeError = PyExn.malformedCooldown
    ∨ ∃ se, PyExn.jsonDecodeError = PyExn.storeExn se)
  ∧ (∃ se, PyExn.storeExn StoreExn.operationFailure = PyExn.storeExn se) :=
  ⟨c2_amended_exn_classes.1 1
      [{ fetch := QFetch.jsonDecodeError, now := "t0", idxRes := none,
         insRes := InsertOutcome.ok }] "AAPL" 1
      [Event.apiCall "AAPL"] PyExn.jsonDecodeError (by decide),
   c2_amended_exn_classes.2 1
      [{ fetch := PFetch.ok { results := some [{ instrument := "https://a/i/42/",
                                                 num_open_positions := 7 }],
                              detail := none },
         now := "t0", insRes := some StoreExn.operationFailure }] "1" 1
      [Event.apiCall "1", Event.pprintEv,
       Event.insertPopularities [{ timestamp := "t0", instrument_id := "42", popularity := 7 }]]
      (PyExn.storeExn StoreExn.operationFailure) (by decide)⟩

/-- C10: the completion short-circuit fires only on exact equality with
`__DONE`: for any other body — including `DONE`, `__done`, or padded
variants — the pipeline sends the body to the upstream API (the first event
is the API call carrying the body) and never touches the phase-completion
setter. -/
theorem c10_exact_sentinel_equality (fuel : Nat) (qas : List QuoteAttempt)
    (pas : List PopAttempt) (b : String) (cdq cdp : ℚ)
    (qt pt : List Event × PyResult) (hb : b ≠ "__DONE") :
  (fetch_quote (fuel + 1) qas b cdq = some qt →
     qt.1.head? = some (Event.apiCall b)
     ∧ qt.1.countP is_set_quotes_finished = 0)
  ∧ (fetch_popularity (fuel + 1) pas b cdp = some pt →
     pt.1.head? = some (Event.apiCall b)
     ∧ pt.1.countP is_set_pops_finished = 0) := by
  constructor
  · intro h
    refine ⟨?_, fetch_quote_no_setter (fuel + 1) qas b cdq qt.1 qt.2 hb h⟩
    cases qas with
    | nil => rw [fetch_quote_nil fuel b cdq hb] at h; exact Option.noConfusion h
    | cons a rest =>
      rw [fetch_quote_cons, if_neg hb] at h
      split at h
      · split at h
        · split at h
          · split at h
            · injection h with hp; subst hp; rfl
            · cases hrec : fetch_quote fuel rest b cdq with
              | none => rw [hrec] at h; exact Option.noConfusion h
              | some tr => rw [hrec] at h; injection h with hp; subst hp; rfl
          · injection h with hp; subst hp; rfl
        · split at h
          · injection h with hp; subst hp; rfl
          · injection h with hp; subst hp; rfl
      · injection h with hp; subst hp; rfl
      · cases hrec : fetch_quote fuel rest b cdq with
        | none => rw [hrec] at h; exact Option.noConfusion h
        | some tr => rw [hrec] at h; injection h with hp; subst hp; rfl
      · injection h with hp; subst hp; rfl
      · injection h with hp; subst hp; rfl
  · intro h
    refine ⟨?_, fetch_popularity_no_setter (fuel + 1) pas b cdp pt.1 pt.2 hb h⟩
    cases pas with
    | nil => rw [fetch_popularity_nil fuel b cdp hb] at h; exact Option.noConfusion h
    | cons a rest =>
      rw [fetch_popularity_cons, if_neg hb] at h
      split at h
      · split at h
        · injection h with hp; subst hp; rfl
        · split at h
          · injection h with hp; subst hp; rfl
          · injection h with hp; subst hp; rfl
      · cases hrec : fetch_popularity fuel rest b cdp with
        | none => rw [hrec] at h; exact Option.noConfusion h
        | some tr => rw [hrec] at h; injection h with hp; subst hp; rfl
      · cases hrec : fetch_popularity fuel rest b cdp with
        | none => rw [hrec] at h; exact Option.noConfusion h
        | some tr => rw [hrec] at h; injection h with hp; subst hp; rfl
      · cases hrec : fetch_popularity fuel rest b cdp with
        | none => rw [hrec] at h; exact Option.noConfusion h
        | some tr => rw [hrec] at h; injection h with hp; subst hp; rfl

theorem c10_exact_sentinel_equality_witness :
  ("DONE" : String) ≠ "__DONE"
  ∧ ("__done" : String) ≠ "__DONE"
  ∧ (" __DONE " : String) ≠ "__DONE"
  ∧ (([Event.apiCall "DONE", Event.pprintEv, Event.indexBulkWrite [],
       Event.insertQuotes [], Event.sleepEv 1] : List Event).head?
       = some (Event.apiCall "DONE")
     ∧ ([Event.apiCall "DONE", Event.pprintEv, Event.indexBulkWrite [],
         Event.insertQuotes [], Event.sleepEv 1] : List Event).countP
         is_set_quotes_finished = 0)
  ∧ (([Event.apiCall "__done", Event.pprintEv, Event.insertPopularities [],
       Event.sleepEv 1] : List Event).head? = some (Event.apiCall "__done")
     ∧ ([Event.apiCall "__done", Event.pprintEv, Event.insertPopularities [],
         Event.sleepEv 1] : List Event).countP is_set_pops_finished = 0) :=
  ⟨by decide, by decide, by decide,
   (c10_exact_sentinel_equality 0 [qaOkEmpty] [] "DONE" 1 1
      ([Event.apiCall "DONE", Event.pprintEv, Event.indexBulkWrite [],
        Event.insertQuotes [], Event.sleepEv 1], PyResult.ok)
      ([], PyResult.ok) (by decide)).1 (by decide),
   (c10_exact_sentinel_equality 0 [] [paOkEmpty] "__done" 1 1
      ([], PyResult.ok)
      ([Event.apiCall "__done", Event.pprintEv, Event.insertPopularities [],
        Event.sleepEv 1], PyResult.ok) (by decide)).2 (by decide)⟩

theorem fetch_quote_timeout_replicate (s : String) (cd : ℚ) (hs : ¬ s = "__DONE") :
    ∀ m : Nat,
      (fetch_quote (m + 1) (List.replicate m qaTimeout ++ [qaOkEmpty]) s cd).map
          (fun tr => tr.1.countP (is_api_call_to s))
        = some (m + 1) := by
  intro m
  induction m with
  | zero =>
    rw [List.replicate_zero, List.nil_append, fetch_quote_cons, if_neg hs]
    simp [qaOkEmpty, store_quotes, dropNulls, is_api_call_to, List.countP_cons]
  | succ k ih =>
    rw [List.replicate_succ, List.cons_append, fetch_quote_cons, if_neg hs]
    cases hrec : fetch_quote (k + 1) (List.replicate k qaTimeout ++ [qaOkEmpty]) s cd with
    | none => rw [hrec] at ih; exact Option.noConfusion ih
    | some tr =>
      rw [hrec] at ih
      have hcount : tr.1.countP (is_api_call_to s) = k + 1 := Option.some.inj ih
      simp [qaTimeout, hrec, prependTrace, List.countP_append, List.countP_cons,
        is_api_call_to, hcount]

theorem fetch_popularity_timeout_replicate (ids : String) (cd : ℚ)
    (hids : ¬ ids = "__DONE") :
    ∀ m : Nat,
      (fetch_popularity (m + 1) (List.replicate m paTimeout ++ [paOkEmpty]) ids cd).map
          (fun tr => tr.1.countP (is_api_call_to ids))
        = some (m + 1) := by
  intro m
  induction m with
  | zero =>
    rw [List.replicate_zero, List.nil_append, fetch_popularity_cons, if_neg hids]
    simp [paOkEmpty, store_popularities, reduce_popularities, is_api_call_to,
      List.countP_cons]
  | succ k ih =>
    rw [List.replicate_succ, List.cons_append, fetch_popularity_cons, if_neg hids]
    cases hrec : fetch_popularity (k + 1) (List.replicate k paTimeout ++ [paOkEmpty]) ids cd with
    | none => rw [hrec] at ih; exact Option.noConfusion ih
    | some tr =>
      rw [hrec] at ih
      have hcount : tr.1.countP (is_api_call_to ids) = k + 1 := Option.some.inj ih
      simp [paTimeout, hrec, prependTrace, List.countP_append, List.countP_cons,
        is_api_call_to, hcount]

/-- C9: a network read-timeout makes both entry points sleep a fixed 30
seconds and then retry the fetch with the identical original batch string and
the same parameters; and the recursion is uncapped — for every n, a run of n
consecutive timeouts followed by one success issues n + 1 upstream calls, all
carrying the same batch string. -/
theorem c9_read_timeout_retry (fuel : Nat) (qrest : List QuoteAttempt)
    (prest : List PopAttempt) (s ids : String) (cdq cdp : ℚ)
    (qnow pnow : String) (qidx : Option StoreExn) (qins : InsertOutcome)
    (pins : Option StoreExn)
    (hs : s ≠ "__DONE") (hids : ids ≠ "__DONE") :
  fetch_quote (fuel + 1)
      ({ fetch := QFetch.readTimeout, now := qnow, idxRes := qidx, insRes := qins } :: qrest)
      s cdq
    = prependTrace [Event.apiCall s,
        Event.logMsg "Read timeout while fetching quotes... Sleeping 30 seconds and re-trying.",
        Event.sleepEv 30] (fetch_quote fuel qrest s cdq)
  ∧ fetch_popularity (fuel + 1)
      ({ fetch := PFetch.readTimeout, now := pnow, insRes := pins } :: prest) ids cdp
    = prependTrace [Event.apiCall ids,
        Event.logMsg "Read timeout while fetching popularity... Sleeping 30 seconds and re-trying.",
        Event.sleepEv 30] (fetch_popularity fuel prest ids cdp)
  ∧ (∀ m : Nat,
      (fetch_quote (m + 1) (List.replicate m qaTimeout ++ [qaOkEmpty]) s cdq).map
        (fun tr => tr.1.countP (is_api_call_to s)) = some (m + 1))
  ∧ (∀ m : Nat,
      (fetch_popularity (m + 1) (List.replicate m paTimeout ++ [paOkEmpty]) ids cdp).map
        (fun tr => tr.1.countP (is_api_call_to ids)) = some (m + 1)) := by
  refine ⟨?_, ?_, fetch_quote_timeout_replicate s cdq hs,
    fetch_popularity_timeout_replicate ids cdp hids⟩
  · rw [fetch_quote_cons, if_neg hs]
  · rw [fetch_popularity_cons, if_neg hids]

theorem c9_read_timeout_retry_witness :
  ("AAPL" : String) ≠ "__DONE" ∧ ("1,2" : String) ≠ "__DONE"
  ∧ fetch_quote 1 [{ fetch := QFetch.readTimeout, now := "t0", idxRes := none,
                     insRes := InsertOutcome.ok }] "AAPL" 1
      = prependTrace [Event.apiCall "AAPL",
          Event.logMsg "Read timeout while fetching quotes... Sleeping 30 seconds and re-trying.",
          Event.sleepEv 30] (fetch_quote 0 [] "AAPL" 1)
  ∧ (fetch_quote 3 (List.replicate 2 qaTimeout ++ [qaOkEmpty]) "AAPL" 1).map
      (fun tr => tr.1.countP (is_api_call_to "AAPL")) = some 3 := by
  have h := c9_read_timeout_retry 0 [] [] "AAPL" "1,2" 1 1 "t0" "t0" none
    InsertOutcome.ok none (by decide) (by decide)
  exact ⟨by decide, by decide, h.1, h.2.2.1 2⟩

end Robin
